import Mathlib

/-!
Verification of `scaled-execution-containers/cdk/lambda/format-notification.py`.

The Lambda handler reads a Batch job-status event, builds an email subject and
body (success or failure template), publishes once to SNS, and returns
`{'statusCode': 200}`.  We embed the handler as a pure function that returns
the list of publish calls it made (the trace) together with either the
returned value or the key whose lookup failed (Python `KeyError`).
-/

/-- The optional `detail.container` object: may carry an `exitCode`. -/
structure Container where
  exitCode : Option Int
deriving DecidableEq

/-- The `detail` object of the inbound event.  Every field is `Option` so that
a missing JSON key can be represented; the Python code raises `KeyError` on
the required ones. -/
structure Detail where
  status : Option String
  jobName : Option String
  jobId : Option String
  statusReason : Option String
  container : Option Container
deriving DecidableEq

/-- The inbound EventBridge event. -/
structure Event where
  detail : Option Detail
  region : Option String
  time : Option String
deriving DecidableEq

/-- One SNS publish call: `sns.publish(TopicArn=..., Subject=..., Message=...)`. -/
structure PublishCall where
  TopicArn : String
  Subject : String
  Message : String
deriving DecidableEq

/-- The handler's return value `{'statusCode': 200}`. -/
structure HandlerReturn where
  statusCode : Nat
deriving DecidableEq

/-- `strContains s t` : the string `t` occurs contiguously inside `s`
(Python's `t in s`). -/
def strContains (s t : String) : Prop :=
  t.data <:+: s.data

instance (s t : String) : Decidable (strContains s t) :=
  List.decidableInfix t.data s.data

/-- Line 17: `exit_code = detail.get('container', {}).get('exitCode', 'N/A')`,
already rendered to the string that the f-string interpolation produces. -/
def exit_code (detail : Detail) : String :=
  match detail.container with
  | none => "N/A"
  | some container =>
    match container.exitCode with
    | none => "N/A"
    | some n => toString n

/-- The CloudWatch log-console deep link (lines 31 and 50), interpolating
`region` into the fixed URL template with the hardcoded log-group path. -/
def logLink (region : String) : String :=
  "https://console.aws.amazon.com/cloudwatch/home?region=" ++ region ++
    "#logsV2:log-groups/log-group/$252Faws$252Fbatch$252Fatx-transform"

/-- The troubleshooting documentation link (line 56), present only in the
failure body. -/
def troubleshootingLink : String :=
  "https://github.com/aws-samples/aws-transform-custom-samples/blob/main/scaled-execution-containers/docs/TROUBLESHOOTING.md"

/-- Line 20: the success subject. -/
def successSubject (job_name : String) : String :=
  "✅ AWS Transform Job Completed: " ++ job_name

/-- Lines 21-35: the success body (the triple-quoted f-string). -/
def successMessage (job_name job_id status exit_code region time : String) : String :=
  "✅ AWS Transform Job Completed Successfully\n\nJob Name: " ++ job_name ++
  "\nJob ID: " ++ job_id ++
  "\nStatus: " ++ status ++
  "\nExit Code: " ++ exit_code ++
  "\nRegion: " ++ region ++
  "\nCompleted At: " ++ time ++
  "\n\nView logs:\n" ++ logLink region ++
  "\n\nCheck job status:\naws batch describe-jobs --jobs " ++ job_id ++
  " --region " ++ region ++ "\n"

/-- Line 38: the failure subject. -/
def failedSubject (job_name : String) : String :=
  "❌ AWS Transform Job Failed: " ++ job_name

/-- Lines 39-57: the failure body (the triple-quoted f-string). -/
def failedMessage (job_name job_id status exit_code status_reason region time : String) : String :=
  "❌ AWS Transform Job Failed\n\nJob Name: " ++ job_name ++
  "\nJob ID: " ++ job_id ++
  "\nStatus: " ++ status ++
  "\nExit Code: " ++ exit_code ++
  "\nReason: " ++ status_reason ++
  "\nRegion: " ++ region ++
  "\nFailed At: " ++ time ++
  "\n\nView logs:\n" ++ logLink region ++
  "\n\nCheck job status:\naws batch describe-jobs --jobs " ++ job_id ++
  " --region " ++ region ++
  "\n\nTroubleshooting:\n" ++ troubleshootingLink ++ "\n"

/-- The handler (lines 8-66).  `publishResponse` stands for the SNS
collaborator: it is invoked on the publish call and its answer is discarded,
exactly as the Python code ignores `sns.publish`'s return value.  `context`
is the unused Lambda context argument.  The result is the trace of publish
calls paired with either the missing key (Python `KeyError` propagating to
the host) or the returned dict. -/
def handler {α β : Type} (publishResponse : PublishCall → β) (TOPIC_ARN : String)
    (event : Event) (context : α) : List PublishCall × Except String HandlerReturn :=
  match event.detail with
  | none => ([], Except.error "detail")
  | some detail =>
    match detail.status with
    | none => ([], Except.error "status")
    | some status =>
      match detail.jobName with
      | none => ([], Except.error "jobName")
      | some job_name =>
        match detail.jobId with
        | none => ([], Except.error "jobId")
        | some job_id =>
          match event.region with
          | none => ([], Except.error "region")
          | some region =>
            match event.time with
            | none => ([], Except.error "time")
            | some time =>
              let ec := exit_code detail
              let sm : String × String :=
                if status = "SUCCEEDED" then
                  (successSubject job_name,
                   successMessage job_name job_id status ec region time)
                else
                  let status_reason := detail.statusReason.getD "Unknown"
                  (failedSubject job_name,
                   failedMessage job_name job_id status ec status_reason region time)
              let call : PublishCall := ⟨TOPIC_ARN, sm.1, sm.2⟩
              let _ := publishResponse call
              ([call], Except.ok ⟨200⟩)

/-- All required lookups of the handler succeed on this event. -/
def requiredPresent (event : Event) : Bool :=
  match event.detail with
  | none => false
  | some detail =>
    detail.status.isSome && detail.jobName.isSome && detail.jobId.isSome &&
      event.region.isSome && event.time.isSome

/-! ### Generic facts about string containment -/

theorem strContains_refl (t : String) : strContains t t :=
  List.infix_refl t.data

theorem strContains_appL {a t : String} {b : String} (h : strContains a t) :
    strContains (a ++ b) t := by
  unfold strContains at h ⊢
  rw [String.data_append]
  exact h.trans (List.prefix_append a.data b.data).isInfix

theorem strContains_appR {b t : String} {a : String} (h : strContains b t) :
    strContains (a ++ b) t := by
  unfold strContains at h ⊢
  rw [String.data_append]
  exact h.trans (List.suffix_append a.data b.data).isInfix

theorem strContains_char {s t : String} {c : Char} (hc : c ∈ t.data)
    (h : strContains s t) : c ∈ s.data :=
  h.subset hc

/-! ### Unfolding the handler on a fully-populated event -/

theorem handler_succeeded_eq {α β : Type} (publishResponse : PublishCall → β)
    (TOPIC_ARN : String) (c : α) (job_name job_id region time : String)
    (sr : Option String) (co : Option Container) :
    handler publishResponse TOPIC_ARN
        ⟨some ⟨some "SUCCEEDED", some job_name, some job_id, sr, co⟩, some region, some time⟩ c =
      ([⟨TOPIC_ARN, successSubject job_name,
          successMessage job_name job_id "SUCCEEDED"
            (exit_code ⟨some "SUCCEEDED", some job_name, some job_id, sr, co⟩) region time⟩],
       Except.ok ⟨200⟩) := by
  simp [handler]

theorem handler_failed_eq {α β : Type} (publishResponse : PublishCall → β)
    (TOPIC_ARN : String) (c : α) (status job_name job_id region time : String)
    (sr : Option String) (co : Option Container) (hne : status ≠ "SUCCEEDED") :
    handler publishResponse TOPIC_ARN
        ⟨some ⟨some status, some job_name, some job_id, sr, co⟩, some region, some time⟩ c =
      ([⟨TOPIC_ARN, failedSubject job_name,
          failedMessage job_name job_id status
            (exit_code ⟨some status, some job_name, some job_id, sr, co⟩)
            (sr.getD "Unknown") region time⟩],
       Except.ok ⟨200⟩) := by
  simp [handler, hne]

/-! ### Characters that can appear in a rendered exit code -/

theorem digitChar_mem (n : Nat) : Nat.digitChar n ∈ "0123456789abcdef*".data := by
  unfold Nat.digitChar
  rcases eq_or_ne n 0 with h | h0
  · rw [if_pos h]; decide
  rw [if_neg h0]
  rcases eq_or_ne n 1 with h | h1
  · rw [if_pos h]; decide
  rw [if_neg h1]
  rcases eq_or_ne n 2 with h | h2
  · rw [if_pos h]; decide
  rw [if_neg h2]
  rcases eq_or_ne n 3 with h | h3
  · rw [if_pos h]; decide
  rw [if_neg h3]
  rcases eq_or_ne n 4 with h | h4
  · rw [if_pos h]; decide
  rw [if_neg h4]
  rcases eq_or_ne n 5 with h | h5
  · rw [if_pos h]; decide
  rw [if_neg h5]
  rcases eq_or_ne n 6 with h | h6
  · rw [if_pos h]; decide
  rw [if_neg h6]
  rcases eq_or_ne n 7 with h | h7
  · rw [if_pos h]; decide
  rw [if_neg h7]
  rcases eq_or_ne n 8 with h | h8
  · rw [if_pos h]; decide
  rw [if_neg h8]
  rcases eq_or_ne n 9 with h | h9
  · rw [if_pos h]; decide
  rw [if_neg h9]
  rcases eq_or_ne n 10 with h | h10
  · rw [if_pos h]; decide
  rw [if_neg h10]
  rcases eq_or_ne n 11 with h | h11
  · rw [if_pos h]; decide
  rw [if_neg h11]
  rcases eq_or_ne n 12 with h | h12
  · rw [if_pos h]; decide
  rw [if_neg h12]
  rcases eq_or_ne n 13 with h | h13
  · rw [if_pos h]; decide
  rw [if_neg h13]
  rcases eq_or_ne n 14 with h | h14
  · rw [if_pos h]; decide
  rw [if_neg h14]
  rcases eq_or_ne n 15 with h | h15
  · rw [if_pos h]; decide
  rw [if_neg h15]
  decide

theorem toDigitsCore_chars (b fuel : Nat) :
    ∀ (n : Nat) (ds : List Char), (∀ c ∈ ds, c ∈ "0123456789abcdef*".data) →
      ∀ c ∈ Nat.toDigitsCore b fuel n ds, c ∈ "0123456789abcdef*".data := by
  induction fuel with
  | zero =>
    intro n ds h c hc
    unfold Nat.toDigitsCore at hc
    exact h c hc
  | succ fuel ih =>
    intro n ds h c hc
    unfold Nat.toDigitsCore at hc
    dsimp only [] at hc
    split at hc
    · rcases List.mem_cons.mp hc with h1 | h1
      · exact h1 ▸ digitChar_mem (n % b)
      · exact h c h1
    · refine ih (n / b) (Nat.digitChar (n % b) :: ds) ?_ c hc
      intro x hx
      rcases List.mem_cons.mp hx with h1 | h1
      · exact h1 ▸ digitChar_mem (n % b)
      · exact h x h1

theorem natRepr_chars (n : Nat) : ∀ c ∈ (Nat.repr n).data, c ∈ "0123456789abcdef*".data := by
  intro c hc
  have h : (Nat.repr n).data = Nat.toDigitsCore 10 (n + 1) n [] := rfl
  rw [h] at hc
  exact toDigitsCore_chars 10 (n + 1) n [] (by intro x hx; cases hx) c hc

theorem intToString_chars (i : Int) : ∀ c ∈ (toString i).data, c ∈ "-0123456789abcdef*".data := by
  have sub : ∀ x ∈ "0123456789abcdef*".data, x ∈ "-0123456789abcdef*".data := by decide
  cases i with
  | ofNat m =>
    intro c hc
    have h : toString (Int.ofNat m) = Nat.repr m := rfl
    rw [h] at hc
    exact sub c (natRepr_chars m c hc)
  | negSucc m =>
    intro c hc
    have h : toString (Int.negSucc m) = "-" ++ Nat.repr (m + 1) := rfl
    rw [h, String.data_append] at hc
    rcases List.mem_append.mp hc with h1 | h1
    · have sub2 : ∀ x ∈ "-".data, x ∈ "-0123456789abcdef*".data := by decide
      exact sub2 c h1
    · exact sub c (natRepr_chars (m + 1) c h1)

theorem exit_code_chars (d : Detail) :
    ∀ c ∈ (exit_code d).data, c ∈ "-0123456789abcdef*N/A".data := by
  have sub : ∀ x ∈ "-0123456789abcdef*".data, x ∈ "-0123456789abcdef*N/A".data := by decide
  unfold exit_code
  split
  · decide
  · split
    · decide
    · intro c hc
      exact sub c (intToString_chars _ c hc)

/-! ### Negative containment via a distinguishing character -/

theorem not_strContains_of_char {s t : String} (c : Char) (hc : c ∈ t.data)
    (hs : c ∉ s.data) : ¬ strContains s t :=
  fun h => hs (h.subset hc)

theorem notMem_append {c : Char} {a b : List Char} (ha : c ∉ a) (hb : c ∉ b) :
    c ∉ a ++ b := by
  intro h
  rcases List.mem_append.mp h with h | h
  · exact ha h
  · exact hb h

/-- The success body contains no uppercase letter B unless one of the
interpolated fields supplies one; since the troubleshooting URL contains a B,
the success body cannot contain the troubleshooting URL in that case. -/
theorem successMessage_no_trouble (job_name job_id status ec region time : String)
    (h1 : 'B' ∉ job_name.data) (h2 : 'B' ∉ job_id.data) (h3 : 'B' ∉ status.data)
    (h4 : 'B' ∉ ec.data) (h5 : 'B' ∉ region.data) (h6 : 'B' ∉ time.data) :
    ¬ strContains (successMessage job_name job_id status ec region time) troubleshootingLink := by
  apply not_strContains_of_char 'B'
  · decide
  · simp only [successMessage, logLink, String.data_append]
    repeat' apply notMem_append
    all_goals first | assumption | decide

/-! ### How the exit-code field is resolved -/

theorem exit_code_eq_NA (d : Detail) (h : d.container.bind Container.exitCode = none) :
    exit_code d = "N/A" := by
  cases hc : d.container with
  | none => simp [exit_code, hc]
  | some con =>
    cases he : con.exitCode with
    | none => simp [exit_code, hc, he]
    | some n =>
      rw [hc] at h
      simp only [Option.some_bind] at h
      rw [he] at h
      cases h

theorem exit_code_eq_val (d : Detail) (n : Int)
    (h : d.container.bind Container.exitCode = some n) : exit_code d = toString n := by
  cases hc : d.container with
  | none => rw [hc] at h; cases h
  | some con =>
    cases he : con.exitCode with
    | none =>
      rw [hc] at h
      simp only [Option.some_bind] at h
      rw [he] at h
      cases h
    | some m =>
      rw [hc] at h
      simp only [Option.some_bind, he, Option.some.injEq] at h
      simp [exit_code, hc, he, h]

/-! ### Claim theorems -/

/-- C2: for every well-formed event whose `detail.status` is any string other
than `"SUCCEEDED"` (e.g. `"FAILED"` or any unrecognized value), the handler
takes the failure path: the subject contains the failure marker, and the body
contains `detail.statusReason` (or `"Unknown"` when absent) and the
troubleshooting link. -/
theorem handler_non_succeeded_failure_path {α β : Type}
    (publishResponse : PublishCall → β) (TOPIC_ARN : String) (c : α)
    (status job_name job_id region time : String)
    (sr : Option String) (co : Option Container) (hne : status ≠ "SUCCEEDED") :
    ∃ call, (handler publishResponse TOPIC_ARN
        ⟨some ⟨some status, some job_name, some job_id, sr, co⟩, some region, some time⟩ c).1 =
      [call] ∧
      strContains call.Subject "❌" ∧
      strContains call.Message (sr.getD "Unknown") ∧
      strContains call.Message troubleshootingLink := by
  rw [handler_failed_eq publishResponse TOPIC_ARN c status job_name job_id region time sr co hne]
  refine ⟨_, rfl, ?_, ?_, ?_⟩
  · unfold failedSubject
    exact strContains_appL (by decide)
  · unfold failedMessage
    repeat first
      | exact strContains_appR (strContains_refl _)
      | apply strContains_appL
  · unfold failedMessage
    repeat first
      | exact strContains_appR (strContains_refl _)
      | apply strContains_appL

/-- C2 witness: a concrete event with an unrecognized status `"CANCELLED"`. -/
theorem handler_non_succeeded_failure_path_witness :
    ∃ call, (handler (fun _ => ()) "arn:aws:sns:t"
        ⟨some ⟨some "CANCELLED", some "my-job", some "job-123", some "Out of memory", none⟩,
         some "us-east-1", some "2024-01-01T00:00:00Z"⟩ ()).1 =
      [call] ∧
      strContains call.Subject "❌" ∧
      strContains call.Message ((some "Out of memory").getD "Unknown") ∧
      strContains call.Message troubleshootingLink :=
  handler_non_succeeded_failure_path (fun _ => ()) "arn:aws:sns:t" ()
    "CANCELLED" "my-job" "job-123" "us-east-1" "2024-01-01T00:00:00Z"
    (some "Out of memory") none (by decide)

/-- C3: for every event missing a required field, the handler fails with a
lookup error (the missing key is reported) and the publish trace is empty. -/
theorem handler_missing_required_field {α β : Type}
    (publishResponse : PublishCall → β) (TOPIC_ARN : String) (event : Event) (c : α)
    (h : requiredPresent event = false) :
    (handler publishResponse TOPIC_ARN event c).1 = [] ∧
      ∃ key, (handler publishResponse TOPIC_ARN event c).2 = Except.error key := by
  obtain ⟨od, org, otm⟩ := event
  cases od with
  | none => exact ⟨rfl, "detail", rfl⟩
  | some d =>
    obtain ⟨os, ojn, oji, osr, oco⟩ := d
    cases os with
    | none => exact ⟨rfl, "status", rfl⟩
    | some st =>
      cases ojn with
      | none => exact ⟨rfl, "jobName", rfl⟩
      | some jn =>
        cases oji with
        | none => exact ⟨rfl, "jobId", rfl⟩
        | some ji =>
          cases org with
          | none => exact ⟨rfl, "region", rfl⟩
          | some rg =>
            cases otm with
            | none => exact ⟨rfl, "time", rfl⟩
            | some tm => simp [requiredPresent] at h

/-- C3 witness: an event whose `detail` lacks `jobName`. -/
theorem handler_missing_required_field_witness :
    (handler (fun _ => ()) "arn:aws:sns:t"
        ⟨some ⟨some "SUCCEEDED", none, some "job-123", none, none⟩, some "us-east-1", some "t"⟩ ()).1 =
      [] ∧
      ∃ key, (handler (fun _ => ()) "arn:aws:sns:t"
        ⟨some ⟨some "SUCCEEDED", none, some "job-123", none, none⟩, some "us-east-1", some "t"⟩ ()).2 =
        Except.error key :=
  handler_missing_required_field (fun _ => ()) "arn:aws:sns:t"
    ⟨some ⟨some "SUCCEEDED", none, some "job-123", none, none⟩, some "us-east-1", some "t"⟩ ()
    (by decide)

/-- C4: for every well-formed event, one invocation of the handler makes
exactly one publish call, carrying the configured topic identifier,
regardless of which branch was taken. -/
theorem handler_publishes_exactly_once {α β : Type}
    (publishResponse : PublishCall → β) (TOPIC_ARN : String) (event : Event) (c : α)
    (h : requiredPresent event = true) :
    ∃ call, (handler publishResponse TOPIC_ARN event c).1 = [call] ∧
      call.TopicArn = TOPIC_ARN := by
  obtain ⟨od, org, otm⟩ := event
  cases od with
  | none => simp [requiredPresent] at h
  | some d =>
    obtain ⟨os, ojn, oji, osr, oco⟩ := d
    cases os with
    | none => simp [requiredPresent] at h
    | some st =>
      cases ojn with
      | none => simp [requiredPresent] at h
      | some jn =>
        cases oji with
        | none => simp [requiredPresent] at h
        | some ji =>
          cases org with
          | none => simp [requiredPresent] at h
          | some rg =>
            cases otm with
            | none => simp [requiredPresent] at h
            | some tm =>
              by_cases hs : st = "SUCCEEDED"
              · subst hs
                rw [handler_succeeded_eq]
                exact ⟨_, rfl, rfl⟩
              · rw [handler_failed_eq publishResponse TOPIC_ARN c st jn ji rg tm osr oco hs]
                exact ⟨_, rfl, rfl⟩

/-- C4 witness: a concrete well-formed event on the failure branch. -/
theorem handler_publishes_exactly_once_witness :
    ∃ call, (handler (fun _ => ()) "arn:aws:sns:t"
        ⟨some ⟨some "FAILED", some "my-job", some "job-123", none, some ⟨some 1⟩⟩,
         some "us-east-1", some "2024-01-01T00:00:00Z"⟩ ()).1 = [call] ∧
      call.TopicArn = "arn:aws:sns:t" :=
  handler_publishes_exactly_once (fun _ => ()) "arn:aws:sns:t"
    ⟨some ⟨some "FAILED", some "my-job", some "job-123", none, some ⟨some 1⟩⟩,
     some "us-east-1", some "2024-01-01T00:00:00Z"⟩ () (by decide)

/-- C5: the handler's outcome never depends on what the publish call returns,
and whenever it reaches the point after the publish call (the trace is
nonempty) it returns `{'statusCode': 200}`. -/
theorem handler_returns_200_unconditionally {α β₁ β₂ : Type}
    (publishResponse₁ : PublishCall → β₁) (publishResponse₂ : PublishCall → β₂)
    (TOPIC_ARN : String) (event : Event) (c : α) :
    handler publishResponse₁ TOPIC_ARN event c = handler publishResponse₂ TOPIC_ARN event c ∧
      ((handler publishResponse₁ TOPIC_ARN event c).1 ≠ [] →
        (handler publishResponse₁ TOPIC_ARN event c).2 = Except.ok ⟨200⟩) := by
  obtain ⟨od, org, otm⟩ := event
  cases od with
  | none => exact ⟨rfl, fun h => absurd rfl h⟩
  | some d =>
    obtain ⟨os, ojn, oji, osr, oco⟩ := d
    cases os with
    | none => exact ⟨rfl, fun h => absurd rfl h⟩
    | some st =>
      cases ojn with
      | none => exact ⟨rfl, fun h => absurd rfl h⟩
      | some jn =>
        cases oji with
        | none => exact ⟨rfl, fun h => absurd rfl h⟩
        | some ji =>
          cases org with
          | none => exact ⟨rfl, fun h => absurd rfl h⟩
          | some rg =>
            cases otm with
            | none => exact ⟨rfl, fun h => absurd rfl h⟩
            | some tm => exact ⟨rfl, fun _ => rfl⟩

/-- C5 witness: on a concrete event the publish trace is nonempty and the
returned value is `{'statusCode': 200}`. -/
theorem handler_returns_200_unconditionally_witness :
    (handler (fun _ => ()) "arn:aws:sns:t"
        ⟨some ⟨some "SUCCEEDED", some "my-job", some "job-123", none, none⟩,
         some "us-east-1", some "2024-01-01T00:00:00Z"⟩ ()).2 = Except.ok ⟨200⟩ :=
  (handler_returns_200_unconditionally (fun _ => ()) (fun _ => true) "arn:aws:sns:t"
      ⟨some ⟨some "SUCCEEDED", some "my-job", some "job-123", none, none⟩,
       some "us-east-1", some "2024-01-01T00:00:00Z"⟩ ()).2
    (by simp [handler])

/-- C10: the handler is deterministic and its output depends only on the event
and the configured topic identifier: the context argument and the publish
collaborator's responses do not influence the result. -/
theorem handler_deterministic {α₁ α₂ β₁ β₂ : Type}
    (publishResponse₁ : PublishCall → β₁) (publishResponse₂ : PublishCall → β₂)
    (TOPIC_ARN : String) (event : Event) (c₁ : α₁) (c₂ : α₂) :
    handler publishResponse₁ TOPIC_ARN event c₁ = handler publishResponse₂ TOPIC_ARN event c₂ := by
  obtain ⟨od, org, otm⟩ := event
  cases od with
  | none => rfl
  | some d =>
    obtain ⟨os, ojn, oji, osr, oco⟩ := d
    cases os with
    | none => rfl
    | some st =>
      cases ojn with
      | none => rfl
      | some jn =>
        cases oji with
        | none => rfl
        | some ji =>
          cases org with
          | none => rfl
          | some rg =>
            cases otm with
            | none => rfl
            | some tm => rfl

/-- C1 counterexample: the claim "the success body does not contain the
troubleshooting link" fails as stated: on the concrete SUCCEEDED event whose
`jobName` is itself the troubleshooting URL, the produced body does contain
the troubleshooting link. -/
theorem handler_success_trouble_injection :
    (handler (fun _ => ()) "arn:aws:sns:t"
        ⟨some ⟨some "SUCCEEDED", some troubleshootingLink, some "job-1", none, none⟩,
         some "us-east-1", some "2024-01-01T00:00:00Z"⟩ ()).1.map PublishCall.Message =
      [successMessage troubleshootingLink "job-1" "SUCCEEDED" "N/A" "us-east-1"
        "2024-01-01T00:00:00Z"] ∧
    strContains
      (successMessage troubleshootingLink "job-1" "SUCCEEDED" "N/A" "us-east-1"
        "2024-01-01T00:00:00Z")
      troubleshootingLink := by
  constructor
  · rfl
  · unfold successMessage
    repeat first
      | exact strContains_appR (strContains_refl _)
      | apply strContains_appL

/-- C1 (amended): for every SUCCEEDED event whose interpolated fields
(jobName, jobId, region, time) do not themselves contain the character 'B'
(in particular for any fields that could not spell the troubleshooting URL),
the subject contains the literal jobName and the success marker; the body
contains jobName, jobId, "SUCCEEDED", the resolved exit code (with "N/A" when
absent), the region, and the timestamp; and the body does not contain the
troubleshooting link. -/
theorem handler_success_contents {α β : Type} (publishResponse : PublishCall → β)
    (TOPIC_ARN : String) (c : α) (job_name job_id region time : String)
    (sr : Option String) (co : Option Container)
    (h1 : 'B' ∉ job_name.data) (h2 : 'B' ∉ job_id.data)
    (h3 : 'B' ∉ region.data) (h4 : 'B' ∉ time.data) :
    ∃ call, (handler publishResponse TOPIC_ARN
        ⟨some ⟨some "SUCCEEDED", some job_name, some job_id, sr, co⟩,
         some region, some time⟩ c).1 = [call] ∧
      strContains call.Subject job_name ∧
      strContains call.Subject "✅" ∧
      strContains call.Message job_name ∧
      strContains call.Message job_id ∧
      strContains call.Message "SUCCEEDED" ∧
      strContains call.Message
        (exit_code ⟨some "SUCCEEDED", some job_name, some job_id, sr, co⟩) ∧
      (co.bind Container.exitCode = none → strContains call.Message "N/A") ∧
      strContains call.Message region ∧
      strContains call.Message time ∧
      ¬ strContains call.Message troubleshootingLink := by
  rw [handler_succeeded_eq]
  refine ⟨_, rfl, ?_, ?_, ?_, ?_, ?_, ?_, ?_, ?_, ?_, ?_⟩
  · unfold successSubject
    exact strContains_appR (strContains_refl _)
  · unfold successSubject
    exact strContains_appL (by decide)
  · unfold successMessage
    repeat first
      | exact strContains_appR (strContains_refl _)
      | apply strContains_appL
  · unfold successMessage
    repeat first
      | exact strContains_appR (strContains_refl _)
      | apply strContains_appL
  · unfold successMessage
    repeat first
      | exact strContains_appR (strContains_refl _)
      | apply strContains_appL
  · unfold successMessage
    repeat first
      | exact strContains_appR (strContains_refl _)
      | apply strContains_appL
  · intro h
    rw [exit_code_eq_NA ⟨some "SUCCEEDED", some job_name, some job_id, sr, co⟩ h]
    unfold successMessage
    repeat first
      | exact strContains_appR (strContains_refl _)
      | apply strContains_appL
  · unfold successMessage
    repeat first
      | exact strContains_appR (strContains_refl _)
      | apply strContains_appL
  · unfold successMessage
    repeat first
      | exact strContains_appR (strContains_refl _)
      | apply strContains_appL
  · exact successMessage_no_trouble job_name job_id "SUCCEEDED"
      (exit_code ⟨some "SUCCEEDED", some job_name, some job_id, sr, co⟩) region time
      h1 h2 (by decide)
      (fun hm => absurd (exit_code_chars _ 'B' hm) (by decide))
      h3 h4

/-- C1 witness: the amended theorem applied at a concrete SUCCEEDED event with
ordinary field values and no container. -/
theorem handler_success_contents_witness :
    ∃ call, (handler (fun _ => ()) "arn:aws:sns:t"
        ⟨some ⟨some "SUCCEEDED", some "my-job", some "job-123", none, none⟩,
         some "us-east-1", some "2024-01-01T00:00:00Z"⟩ ()).1 = [call] ∧
      strContains call.Subject "my-job" ∧
      strContains call.Subject "✅" ∧
      strContains call.Message "my-job" ∧
      strContains call.Message "job-123" ∧
      strContains call.Message "SUCCEEDED" ∧
      strContains call.Message
        (exit_code ⟨some "SUCCEEDED", some "my-job", some "job-123", none, none⟩) ∧
      ((none : Option Container).bind Container.exitCode = none →
        strContains call.Message "N/A") ∧
      strContains call.Message "us-east-1" ∧
      strContains call.Message "2024-01-01T00:00:00Z" ∧
      ¬ strContains call.Message troubleshootingLink :=
  handler_success_contents (fun _ => ()) "arn:aws:sns:t" () "my-job" "job-123"
    "us-east-1" "2024-01-01T00:00:00Z" none none
    (by decide) (by decide) (by decide) (by decide)

/-- C6: on the failure path the subject is exactly the failure template filled
with the jobName, and the body contains jobName, jobId, the status, the
resolved exit code, region, timestamp, the statusReason (or "Unknown") and
the troubleshooting link; the failure template itself carries no
success-framing header. -/
theorem handler_failure_message_shape {α β : Type}
    (publishResponse : PublishCall → β) (TOPIC_ARN : String) (c : α)
    (status job_name job_id region time : String)
    (sr : Option String) (co : Option Container) (hne : status ≠ "SUCCEEDED") :
    ∃ call, (handler publishResponse TOPIC_ARN
        ⟨some ⟨some status, some job_name, some job_id, sr, co⟩,
         some region, some time⟩ c).1 = [call] ∧
      call.Subject = failedSubject job_name ∧
      failedSubject job_name = "❌ AWS Transform Job Failed: " ++ job_name ∧
      strContains call.Message job_name ∧
      strContains call.Message job_id ∧
      strContains call.Message status ∧
      strContains call.Message
        (exit_code ⟨some status, some job_name, some job_id, sr, co⟩) ∧
      strContains call.Message region ∧
      strContains call.Message time ∧
      strContains call.Message (sr.getD "Unknown") ∧
      strContains call.Message troubleshootingLink ∧
      ¬ strContains (failedMessage "" "" "" "" "" "" "")
          "✅ AWS Transform Job Completed Successfully" := by
  rw [handler_failed_eq publishResponse TOPIC_ARN c status job_name job_id region time sr co hne]
  refine ⟨_, rfl, rfl, rfl, ?_, ?_, ?_, ?_, ?_, ?_, ?_, ?_, ?_⟩
  · unfold failedMessage
    repeat first
      | exact strContains_appR (strContains_refl _)
      | apply strContains_appL
  · unfold failedMessage
    repeat first
      | exact strContains_appR (strContains_refl _)
      | apply strContains_appL
  · unfold failedMessage
    repeat first
      | exact strContains_appR (strContains_refl _)
      | apply strContains_appL
  · unfold failedMessage
    repeat first
      | exact strContains_appR (strContains_refl _)
      | apply strContains_appL
  · unfold failedMessage
    repeat first
      | exact strContains_appR (strContains_refl _)
      | apply strContains_appL
  · unfold failedMessage
    repeat first
      | exact strContains_appR (strContains_refl _)
      | apply strContains_appL
  · unfold failedMessage
    repeat first
      | exact strContains_appR (strContains_refl _)
      | apply strContains_appL
  · unfold failedMessage
    repeat first
      | exact strContains_appR (strContains_refl _)
      | apply strContains_appL
  · apply not_strContains_of_char '✅'
    · decide
    · simp only [failedMessage, logLink, troubleshootingLink, String.data_append]
      repeat' apply notMem_append
      all_goals decide

/-- C6 witness: the failure-shape theorem applied at a concrete FAILED event. -/
theorem handler_failure_message_shape_witness :
    ∃ call, (handler (fun _ => ()) "arn:aws:sns:t"
        ⟨some ⟨some "FAILED", some "my-job", some "job-123", some "Out of memory", some ⟨some 1⟩⟩,
         some "us-east-1", some "2024-01-01T00:00:00Z"⟩ ()).1 = [call] ∧
      call.Subject = failedSubject "my-job" ∧
      failedSubject "my-job" = "❌ AWS Transform Job Failed: " ++ "my-job" ∧
      strContains call.Message "my-job" ∧
      strContains call.Message "job-123" ∧
      strContains call.Message "FAILED" ∧
      strContains call.Message
        (exit_code ⟨some "FAILED", some "my-job", some "job-123", some "Out of memory", some ⟨some 1⟩⟩) ∧
      strContains call.Message "us-east-1" ∧
      strContains call.Message "2024-01-01T00:00:00Z" ∧
      strContains call.Message ((some "Out of memory").getD "Unknown") ∧
      strContains call.Message troubleshootingLink ∧
      ¬ strContains (failedMessage "" "" "" "" "" "" "")
          "✅ AWS Transform Job Completed Successfully" :=
  handler_failure_message_shape (fun _ => ()) "arn:aws:sns:t" ()
    "FAILED" "my-job" "job-123" "us-east-1" "2024-01-01T00:00:00Z"
    (some "Out of memory") (some ⟨some 1⟩) (by decide)

/-- C7: for every well-formed event, on either branch, when
`detail.container.exitCode` is absent the body contains "N/A" in the
exit-code field, and when it is present the body contains the rendered
numeric value. -/
theorem handler_exit_code_field {α β : Type}
    (publishResponse : PublishCall → β) (TOPIC_ARN : String) (c : α)
    (status job_name job_id region time : String)
    (sr : Option String) (co : Option Container) :
    ∃ call, (handler publishResponse TOPIC_ARN
        ⟨some ⟨some status, some job_name, some job_id, sr, co⟩,
         some region, some time⟩ c).1 = [call] ∧
      (co.bind Container.exitCode = none → strContains call.Message "N/A") ∧
      (∀ n : Int, co.bind Container.exitCode = some n →
        strContains call.Message (toString n)) := by
  by_cases hs : status = "SUCCEEDED"
  · subst hs
    rw [handler_succeeded_eq]
    refine ⟨_, rfl, ?_, ?_⟩
    · intro h
      rw [exit_code_eq_NA ⟨some "SUCCEEDED", some job_name, some job_id, sr, co⟩ h]
      unfold successMessage
      repeat first
        | exact strContains_appR (strContains_refl _)
        | apply strContains_appL
    · intro n h
      rw [exit_code_eq_val ⟨some "SUCCEEDED", some job_name, some job_id, sr, co⟩ n h]
      unfold successMessage
      repeat first
        | exact strContains_appR (strContains_refl _)
        | apply strContains_appL
  · rw [handler_failed_eq publishResponse TOPIC_ARN c status job_name job_id region time sr co hs]
    refine ⟨_, rfl, ?_, ?_⟩
    · intro h
      rw [exit_code_eq_NA ⟨some status, some job_name, some job_id, sr, co⟩ h]
      unfold failedMessage
      repeat first
        | exact strContains_appR (strContains_refl _)
        | apply strContains_appL
    · intro n h
      rw [exit_code_eq_val ⟨some status, some job_name, some job_id, sr, co⟩ n h]
      unfold failedMessage
      repeat first
        | exact strContains_appR (strContains_refl _)
        | apply strContains_appL

/-- C7 witness: a concrete event carrying `container.exitCode = 137`; the
body contains "137". -/
theorem handler_exit_code_field_witness :
    (∃ call, (handler (fun _ => ()) "arn:aws:sns:t"
        ⟨some ⟨some "FAILED", some "my-job", some "job-123", none, some ⟨some 137⟩⟩,
         some "us-east-1", some "2024-01-01T00:00:00Z"⟩ ()).1 = [call] ∧
      ((some (⟨some 137⟩ : Container)).bind Container.exitCode = none →
        strContains call.Message "N/A") ∧
      (∀ n : Int, (some (⟨some 137⟩ : Container)).bind Container.exitCode = some n →
        strContains call.Message (toString n))) ∧
    (some (⟨some 137⟩ : Container)).bind Container.exitCode = some 137 :=
  ⟨handler_exit_code_field (fun _ => ()) "arn:aws:sns:t" ()
    "FAILED" "my-job" "job-123" "us-east-1" "2024-01-01T00:00:00Z"
    none (some ⟨some 137⟩), by decide⟩

/-- C8: for every well-formed event, on either branch, the body contains the
log-console link, which is the fixed URL template with the event's region
interpolated verbatim and which carries the hardcoded log-group path
segment. -/
theorem handler_log_console_link {α β : Type}
    (publishResponse : PublishCall → β) (TOPIC_ARN : String) (c : α)
    (status job_name job_id region time : String)
    (sr : Option String) (co : Option Container) :
    ∃ call, (handler publishResponse TOPIC_ARN
        ⟨some ⟨some status, some job_name, some job_id, sr, co⟩,
         some region, some time⟩ c).1 = [call] ∧
      strContains call.Message (logLink region) ∧
      logLink region =
        "https://console.aws.amazon.com/cloudwatch/home?region=" ++ region ++
          "#logsV2:log-groups/log-group/$252Faws$252Fbatch$252Fatx-transform" ∧
      strContains (logLink region) region ∧
      strContains (logLink region) "$252Faws$252Fbatch$252Fatx-transform" := by
  by_cases hs : status = "SUCCEEDED"
  · subst hs
    rw [handler_succeeded_eq]
    refine ⟨_, rfl, ?_, rfl, ?_, ?_⟩
    · unfold successMessage
      repeat first
        | exact strContains_appR (strContains_refl _)
        | apply strContains_appL
    · unfold logLink
      exact strContains_appL (strContains_appR (strContains_refl _))
    · unfold logLink
      exact strContains_appR (by decide)
  · rw [handler_failed_eq publishResponse TOPIC_ARN c status job_name job_id region time sr co hs]
    refine ⟨_, rfl, ?_, rfl, ?_, ?_⟩
    · unfold failedMessage
      repeat first
        | exact strContains_appR (strContains_refl _)
        | apply strContains_appL
    · unfold logLink
      exact strContains_appL (strContains_appR (strContains_refl _))
    · unfold logLink
      exact strContains_appR (by decide)

/-- C9: for every event whose `detail` lacks the `container` key entirely, the
handler raises no lookup error (it returns `{'statusCode': 200}`), the
nested lookup defaulting to an empty object, and the body's exit-code field
renders "N/A". -/
theorem handler_total_without_container {α β : Type}
    (publishResponse : PublishCall → β) (TOPIC_ARN : String) (c : α)
    (status job_name job_id region time : String) (sr : Option String) :
    (handler publishResponse TOPIC_ARN
        ⟨some ⟨some status, some job_name, some job_id, sr, none⟩,
         some region, some time⟩ c).2 = Except.ok ⟨200⟩ ∧
    ∃ call, (handler publishResponse TOPIC_ARN
        ⟨some ⟨some status, some job_name, some job_id, sr, none⟩,
         some region, some time⟩ c).1 = [call] ∧
      strContains call.Message "N/A" := by
  by_cases hs : status = "SUCCEEDED"
  · subst hs
    rw [handler_succeeded_eq]
    refine ⟨rfl, _, rfl, ?_⟩
    rw [exit_code_eq_NA ⟨some "SUCCEEDED", some job_name, some job_id, sr, none⟩ rfl]
    unfold successMessage
    repeat first
      | exact strContains_appR (strContains_refl _)
      | apply strContains_appL
  · rw [handler_failed_eq publishResponse TOPIC_ARN c status job_name job_id region time sr none hs]
    refine ⟨rfl, _, rfl, ?_⟩
    rw [exit_code_eq_NA ⟨some status, some job_name, some job_id, sr, none⟩ rfl]
    unfold failedMessage
    repeat first
      | exact strContains_appR (strContains_refl _)
      | apply strContains_appL

